import Mathlib

/-!
Verification development for the EU-PF-INTEL hotel-portfolio pipeline.

The repository fetches per-property data from two review platforms
(fetch-tripadvisor.js, fetch-google.js), persists the results
incrementally, merges them against a canonical property list
(fetch-all.js), and serves the merged portfolio plus a user-curated
saved-folders store over an Express server (server.js, two variants).

This file shallowly embeds the pipeline logic.  External HTTP responses
are supplied as explicit environment values; JavaScript numbers are
modelled as `Rat` (with `JNum` carrying an explicit NaN for parseFloat
results); JS `undefined`/`null` values are `Option`; fallible code
returns `Except`.  Wall-clock timestamps (`fetchedAt`, `lastFetch`,
`Date.now()`) are outside the model and omitted; dates that the code
compares (`published_date` versus the three-year cutoff) are modelled
as integers, matching the numeric comparison of JS `Date` objects.
-/

/-! ### JavaScript numeric primitives

`parseFloat` in JS parses the longest numeric prefix of the string and
returns NaN when no digit is found.  `JNum` makes the NaN case explicit.
The model covers plain decimal literals (optional sign, integer part,
fractional part), which is the shape every rating/subrating string from
the upstream APIs takes.
-/

/-- A JS number as produced by `parseFloat`: either an actual numeric
value or NaN. -/
inductive JNum where
  | num (q : Rat)
  | nan
deriving Repr, DecidableEq

/-- Value of a list of decimal digit characters read left to right. -/
def digitsToNat (cs : List Char) : Nat :=
  cs.foldl (fun a c => a * 10 + (c.toNat - 48)) 0

/-- Parse an unsigned decimal literal (`123`, `123.45`, `.5`, `4.`)
from a character list; NaN when no digit is present. -/
def parseDecimal (cs : List Char) : JNum :=
  let ip := cs.takeWhile Char.isDigit
  let rest := cs.dropWhile Char.isDigit
  match rest with
  | '.' :: rest2 =>
      let fp := rest2.takeWhile Char.isDigit
      if ip.isEmpty && fp.isEmpty then .nan
      else .num ((digitsToNat ip : Rat) + (digitsToNat fp : Rat) / ((10 : Rat) ^ fp.length))
  | _ => if ip.isEmpty then .nan else .num (digitsToNat ip)

/-- JS `parseFloat` on a string: skip leading whitespace, optional
sign, then a decimal literal. -/
def jsParseFloatStr (s : String) : JNum :=
  let cs := s.data.dropWhile Char.isWhitespace
  match cs with
  | '-' :: rest =>
      match parseDecimal rest with
      | .num q => .num (-q)
      | .nan => .nan
  | '+' :: rest => parseDecimal rest
  | _ => parseDecimal cs

/-- JS `parseFloat` applied to a possibly-undefined value:
`parseFloat(undefined)` is NaN. -/
def jsParseFloat : Option String → JNum
  | none => .nan
  | some s => jsParseFloatStr s

/-- JS `x || null` applied to a parseFloat result: both NaN and 0 are
falsy, so they collapse to null (`none`). -/
def jsOrNull : JNum → Option Rat
  | .nan => none
  | .num q => if q = 0 then none else some q

/-- JS `n || null` on a possibly-undefined nonnegative integer field
(`details.num_rooms || null`): undefined and 0 become null. -/
def jsOrNullNat : Option Nat → Option Nat
  | none => none
  | some k => if k = 0 then none else some k

/-- JS `a || b` on possibly-undefined numbers (`details.rating ||
basic.rating`): undefined and 0 fall through to the second operand. -/
def jsOrRat : Option Rat → Option Rat → Option Rat
  | none, b => b
  | some q, b => if q = 0 then b else some q

/-- JS `a || b` on possibly-undefined counts (`details.user_ratings_total
|| basic.totalRatings`). -/
def jsOrNat : Option Nat → Option Nat → Option Nat
  | none, b => b
  | some k, b => if k = 0 then b else some k

/-- JS `a || b` on possibly-undefined strings (`full.name || name`):
undefined and the empty string fall through. -/
def jsOrStr : Option String → Option String → Option String
  | none, b => b
  | some s, b => if s = "" then b else some s

/-- JS `s || d` with a string default (`p.source?.name || 'unknown'`). -/
def jsOrStrD (o : Option String) (d : String) : String :=
  match o with
  | none => d
  | some s => if s = "" then d else s

/-- JS `a ?? b` (nullish coalescing, used by the folder handlers):
only undefined/null falls through; 0 and "" are kept. -/
def jsCoalesce {α : Type} : Option α → Option α → Option α
  | some x, _ => some x
  | none, b => b

/-- The normalization of the overall rating shared by
fetch-tripadvisor.js (`parseFloat(details.rating) || null`) and
server.js `fetchTAHotelDetails` (`parseFloat(d.rating) || null`). -/
def normalizeRating (s : Option String) : Option Rat :=
  jsOrNull (jsParseFloat s)

/-! ### TripAdvisor data model (fetch-tripadvisor.js) -/

/-- An error surfaced by an external HTTP call, as the catch handlers
see it: the message plus the optional HTTP status of the response
(`err.response?.status`). -/
structure ApiError where
  message : String
  status : Option Nat
deriving Repr, DecidableEq

/-- A raw review object from the TripAdvisor reviews endpoint.
`publishedDate` is the value of `new Date(review.published_date)`,
modelled as epoch milliseconds. -/
structure TAReview where
  rid : Nat
  title : Option String
  text : Option String
  rating : Option Rat
  publishedDate : Int
  helpfulVotes : Option Nat
  tripType : Option String
  travelDate : Option String
  username : Option String
  avatarUrl : Option String
  userLocation : Option String
  url : Option String
deriving Repr, DecidableEq

/-- The normalized review shape built in fetchProperty (tripadvisor). -/
structure ParsedReview where
  rid : Nat
  title : Option String
  text : Option String
  rating : Option Rat
  publishedDate : Int
  helpfulVotes : Option Nat
  tripType : Option String
  travelDate : Option String
  username : Option String
  avatarUrl : Option String
  userLocation : Option String
  url : Option String
deriving Repr, DecidableEq

/-- One resolution-keyed image set of a TripAdvisor photo. -/
structure PhotoImages where
  thumbnail : Option String
  small : Option String
  medium : Option String
  large : Option String
  original : Option String
deriving Repr, DecidableEq

/-- A raw photo object from the TripAdvisor photos endpoint. -/
structure TAPhoto where
  pid : Nat
  caption : Option String
  publishedDate : Option String
  sourceName : Option String
  username : Option String
  images : PhotoImages
deriving Repr, DecidableEq

/-- The normalized photo shape built in fetchProperty (tripadvisor). -/
structure ParsedPhoto where
  pid : Nat
  caption : Option String
  publishedDate : Option String
  source : String
  user : Option String
  images : PhotoImages
deriving Repr, DecidableEq

/-- A location candidate from the TripAdvisor search endpoint. -/
structure TALocation where
  locationId : Nat
deriving Repr, DecidableEq

/-- One subrating value as returned by the details endpoint:
`{ localized_name, value }` with the value still a string. -/
structure TASubrating where
  localizedName : Option String
  value : Option String
deriving Repr, DecidableEq

/-- The parsed subrating shape `{ name, value: parseFloat(v.value) }`.
Note the value is the raw parseFloat result and may be NaN. -/
structure ParsedSubrating where
  name : Option String
  value : JNum
deriving Repr, DecidableEq

/-- The TripAdvisor details record (fields the pipeline reads). -/
structure TADetails where
  webUrl : Option String
  name : Option String
  addressString : Option String
  rating : Option String
  numReviews : Option Nat
  rankingString : Option String
  rankingCategory : Option String
  priceLevel : Option String
  price : Option String
  numRooms : Option Nat
  subratings : Option (List (String × TASubrating))
  awards : Option (List String)
deriving Repr, DecidableEq

/-- The parsing of `details.subratings` in fetchProperty (tripadvisor)
and in server.js `fetchTAHotelDetails`: absent subratings become `{}`,
each value is `parseFloat(v.value)` with no null-guard. -/
def parseSubratings (subs : Option (List (String × TASubrating))) :
    List (String × ParsedSubrating) :=
  match subs with
  | none => []
  | some l => l.map (fun kv => (kv.1, ⟨kv.2.localizedName, jsParseFloat kv.2.value⟩))

/-! ### Review pagination (getLocationReviews, fetch-tripadvisor.js 79-119)

The loop fetches pages of at most 5 reviews.  An empty page stops
pagination.  Within a page, each review whose date is `>= cutoff` is
accumulated; the first review with a date `< cutoff` sets
`hitOldReview`, the rest of the page is skipped, and pagination stops.
The page sequence served by the API is the `pages` argument; an
exhausted list behaves like the empty page the API would return next.
-/

/-- The inner for-loop of getLocationReviews: accumulate reviews while
`cutoff <= publishedDate`, breaking (and flagging `hitOldReview`) at
the first older review. -/
def collectInWindow (cutoff : Int) : List TAReview → List TAReview × Bool
  | [] => ([], false)
  | r :: rs =>
    if cutoff ≤ r.publishedDate then
      let rec2 := collectInWindow cutoff rs
      (r :: rec2.1, rec2.2)
    else ([], true)

/-- The pagination loop of getLocationReviews over the page sequence
served by the reviews endpoint. -/
def getLocationReviews (cutoff : Int) : List (List TAReview) → List TAReview
  | [] => []
  | page :: rest =>
    if page.isEmpty then []
    else
      let step := collectInWindow cutoff page
      if step.2 then step.1 else step.1 ++ getLocationReviews cutoff rest

/-- Modelled from the spec's words (for comparison with the source
function, claim C1): the prefix of all reviews strictly newer than the
cutoff, truncated at the first review that is not. -/
def specReviewWindow (cutoff : Int) (pages : List (List TAReview)) : List TAReview :=
  pages.flatten.takeWhile (fun r => decide (cutoff < r.publishedDate))

/-! ### TripAdvisor per-property pipeline (fetchProperty, fetch-tripadvisor.js 137-236)

The external HTTP responses for one property are supplied as a `TAEnv`.
Each step of the pipeline consumes the corresponding response; a
transport failure is an `ApiError` in the environment.  The reviews
endpoint is consumed page by page, so its successful response is the
page sequence fed to `getLocationReviews`.
-/

/-- The platform responses one property's TripAdvisor pipeline sees. -/
structure TAEnv where
  searchResponse : Except ApiError (List TALocation)
  detailsResponse : Except ApiError TADetails
  reviewPages : Except ApiError (List (List TAReview))
  photosResponse : Except ApiError (List TAPhoto)

/-- A property from the static properties.json config. -/
structure Property where
  id : Nat
  name : String
  brand : String
  city : String
  state : String
  address : String
  tripadvisorQuery : String
  googleQuery : String
deriving Repr, DecidableEq

/-- The normalized TripAdvisor SourceRecord.  On the success path every
field is populated from the platform responses; the error record sets
only `propertyId`, `source`, `error`, `reviews`, `photos` (all other
keys are absent in the JS object, i.e. `none`/`[]` here).  `fetchedAt`
(wall clock) is omitted from the model. -/
structure TASourceRecord where
  propertyId : Nat
  source : String
  locationId : Option Nat
  locationIdStr : Option String
  tripadvisorUrl : Option String
  name : Option String
  address : Option String
  rating : Option Rat
  numReviews : Option Nat
  rankingString : Option String
  rankingCategory : Option String
  priceLevel : Option String
  priceRange : Option String
  numRooms : Option Nat
  subratings : List (String × ParsedSubrating)
  awardedBadges : List String
  reviews : List ParsedReview
  photos : List ParsedPhoto
  error : Option String
deriving Repr, DecidableEq

/-- The error-tagged SourceRecord built in the catch handler of
fetchProperty (tripadvisor): only propertyId, source, error and the
empty reviews/photos lists. -/
def mkErrorRecordTA (pid : Nat) (msg : String) : TASourceRecord where
  propertyId := pid
  source := "tripadvisor"
  locationId := none
  locationIdStr := none
  tripadvisorUrl := none
  name := none
  address := none
  rating := none
  numReviews := none
  rankingString := none
  rankingCategory := none
  priceLevel := none
  priceRange := none
  numRooms := none
  subratings := []
  awardedBadges := []
  reviews := []
  photos := []
  error := some msg

/-- searchLocation (fetch-tripadvisor.js 46-61): take the search
response's data array; zero results throw; otherwise the first
(most relevant) result is used. -/
def searchLocation (env : TAEnv) (property : Property) : Except ApiError TALocation :=
  match env.searchResponse with
  | .error e => .error e
  | .ok [] =>
      .error ⟨"No TripAdvisor results for \"" ++ property.tripadvisorQuery ++ "\"", none⟩
  | .ok (l :: _) => .ok l

/-- The normalization of one raw review (fetch-tripadvisor.js 163-178). -/
def parseTAReview (r : TAReview) : ParsedReview where
  rid := r.rid
  title := r.title
  text := r.text
  rating := r.rating
  publishedDate := r.publishedDate
  helpfulVotes := r.helpfulVotes
  tripType := r.tripType
  travelDate := r.travelDate
  username := r.username
  avatarUrl := r.avatarUrl
  userLocation := r.userLocation
  url := r.url

/-- The normalization of one raw photo (fetch-tripadvisor.js 181-194). -/
def parseTAPhoto (p : TAPhoto) : ParsedPhoto where
  pid := p.pid
  caption := p.caption
  publishedDate := p.publishedDate
  source := jsOrStrD p.sourceName "unknown"
  user := p.username
  images := p.images

/-- The try-block of fetchProperty (tripadvisor): search, details,
paginated reviews, photos, then normalization into a SourceRecord.
Any step's failure is the `Except.error` case. -/
def taBody (property : Property) (cutoff : Int) (env : TAEnv) :
    Except ApiError TASourceRecord :=
  match searchLocation env property with
  | .error e => .error e
  | .ok location =>
  match env.detailsResponse with
  | .error e => .error e
  | .ok details =>
  match env.reviewPages with
  | .error e => .error e
  | .ok pages =>
  match env.photosResponse with
  | .error e => .error e
  | .ok photos =>
  let reviews := getLocationReviews cutoff pages
  .ok
    { propertyId := property.id
      source := "tripadvisor"
      locationId := some location.locationId
      locationIdStr := some (toString location.locationId)
      tripadvisorUrl := details.webUrl
      name := details.name
      address := details.addressString
      rating := normalizeRating details.rating
      numReviews := details.numReviews
      rankingString := details.rankingString
      rankingCategory := details.rankingCategory
      priceLevel := details.priceLevel
      priceRange := details.price
      numRooms := jsOrNullNat details.numRooms
      subratings := parseSubratings details.subratings
      awardedBadges := (details.awards).getD []
      reviews := reviews.map parseTAReview
      photos := photos.map parseTAPhoto
      error := none }

/-- Result of one fetchProperty call: the SourceRecord plus the extra
cool-down sleep (milliseconds) performed inside the catch handler, if
any.  The routine inter-call `DELAY_MS` sleeps are not represented. -/
structure FetchResult (R : Type) where
  record : R
  coolDownMs : Option Nat
deriving Repr, DecidableEq

/-- fetchProperty (tripadvisor, 137-236): run the pipeline body; on any
failure, sleep 10000 ms when the response status was 429, then return
the error-tagged record with the exception's message. -/
def fetchPropertyTA (property : Property) (cutoff : Int) (env : TAEnv) :
    FetchResult TASourceRecord :=
  match taBody property cutoff env with
  | .ok r => ⟨r, none⟩
  | .error e =>
      ⟨mkErrorRecordTA property.id e.message,
        if e.status = some 429 then some 10000 else none⟩

/-! ### Google per-property pipeline (fetchProperty, fetch-google.js 400-460) -/

/-- A text-search result from the Google Places search endpoint. -/
structure GPlace where
  placeId : String
  name : Option String
  rating : Option Rat
  totalRatings : Option Nat
  address : Option String
deriving Repr, DecidableEq

/-- A raw Google review. -/
structure GReview where
  authorName : Option String
  rating : Option Rat
  text : Option String
  time : Option Int
  relativeTime : Option String
  profilePhotoUrl : Option String
  authorUrl : Option String
deriving Repr, DecidableEq

/-- The normalized Google review shape (fetch-google.js 413-421). -/
structure GParsedReview where
  author : Option String
  rating : Option Rat
  text : Option String
  time : Option Int
  timeDescription : Option String
  profilePhoto : Option String
  googleMapsUrl : Option String
deriving Repr, DecidableEq

/-- A raw Google photo descriptor. -/
structure GPhoto where
  photoReference : String
  width : Option Nat
  height : Option Nat
  htmlAttributions : List String
deriving Repr, DecidableEq

/-- The normalized Google photo shape (fetch-google.js 424-431). -/
structure GParsedPhoto where
  url : String
  width : Option Nat
  height : Option Nat
  attributions : List String
deriving Repr, DecidableEq

/-- The Google place-details record (fields the pipeline reads). -/
structure GDetails where
  name : Option String
  rating : Option Rat
  userRatingsTotal : Option Nat
  reviews : Option (List GReview)
  photos : Option (List GPhoto)
  website : Option String
  phone : Option String
  url : Option String
deriving Repr, DecidableEq

/-- The platform responses one property's Google pipeline sees; the
API key is carried because photo URLs embed it. -/
structure GEnv where
  apiKey : String
  searchResponse : Except ApiError (List GPlace)
  detailsResponse : Except ApiError GDetails

/-- The normalized Google SourceRecord; `fetchedAt` omitted as above. -/
structure GSourceRecord where
  propertyId : Nat
  source : String
  placeId : Option String
  googleMapsUrl : Option String
  website : Option String
  phone : Option String
  rating : Option Rat
  totalRatings : Option Nat
  address : Option String
  reviews : List GParsedReview
  photos : List GParsedPhoto
  rawName : Option String
  error : Option String
deriving Repr, DecidableEq

/-- The error-tagged Google SourceRecord from the catch handler. -/
def mkErrorRecordG (pid : Nat) (msg : String) : GSourceRecord where
  propertyId := pid
  source := "google"
  placeId := none
  googleMapsUrl := none
  website := none
  phone := none
  rating := none
  totalRatings := none
  address := none
  reviews := []
  photos := []
  rawName := none
  error := some msg

/-- findPlaceId (fetch-google.js 338-361): zero results throw,
otherwise the first result's identity fields are returned. -/
def findPlaceId (env : GEnv) (property : Property) : Except ApiError GPlace :=
  match env.searchResponse with
  | .error e => .error e
  | .ok [] => .error ⟨"No results found for \"" ++ property.googleQuery ++ "\"", none⟩
  | .ok (x :: _) => .ok x

/-- photoRefToUrl (fetch-google.js 393-395), PHOTO_MAX_WIDTH = 800. -/
def photoRefToUrl (apiKey : String) (photoReference : String) : String :=
  "https://maps.googleapis.com/maps/api/place/photo?maxwidth=800&photoreference="
    ++ photoReference ++ "&key=" ++ apiKey

/-- MAX_PHOTOS (fetch-google.js). -/
def MAX_PHOTOS : Nat := 60

/-- The try-block of fetchProperty (google): find the place, fetch
details, normalize reviews and the first MAX_PHOTOS photos. -/
def gBody (property : Property) (env : GEnv) : Except ApiError GSourceRecord :=
  match findPlaceId env property with
  | .error e => .error e
  | .ok basic =>
  match env.detailsResponse with
  | .error e => .error e
  | .ok details =>
  let reviews := (details.reviews.getD []).map fun r =>
    ({ author := r.authorName, rating := r.rating, text := r.text, time := r.time
       timeDescription := r.relativeTime, profilePhoto := r.profilePhotoUrl
       googleMapsUrl := r.authorUrl } : GParsedReview)
  let photos := ((details.photos.getD []).take MAX_PHOTOS).map fun p =>
    ({ url := photoRefToUrl env.apiKey p.photoReference, width := p.width
       height := p.height, attributions := p.htmlAttributions } : GParsedPhoto)
  .ok
    { propertyId := property.id
      source := "google"
      placeId := some basic.placeId
      googleMapsUrl := details.url
      website := details.website
      phone := details.phone
      rating := jsOrRat details.rating basic.rating
      totalRatings := jsOrNat details.userRatingsTotal basic.totalRatings
      address := basic.address
      reviews := reviews
      photos := photos
      rawName := details.name
      error := none }

/-- fetchProperty (google, 400-460): run the body; the catch handler
returns the error record immediately — it has no 429 cool-down. -/
def fetchPropertyG (property : Property) (env : GEnv) : FetchResult GSourceRecord :=
  match gBody property env with
  | .ok r => ⟨r, none⟩
  | .error e => ⟨mkErrorRecordG property.id e.message, none⟩

/-! ### Incremental result store (fetch-tripadvisor.js 260-275, fetch-google.js 478-496)

The JS code keeps the store as a plain object keyed by property id and
re-serializes `Object.values(results)` after every property.  The model
keeps the object's key insertion order explicitly as an association
list: assigning to an existing key replaces its value in place,
assigning a new key appends. -/

/-- JS object assignment `results[id] = r` with key insertion-order
semantics. -/
def upsert {R : Type} : List (Nat × R) → Nat → R → List (Nat × R)
  | [], id, r => [(id, r)]
  | e :: es, id, r =>
      if e.1 = id then (id, r) :: es else e :: upsert es id r

/-- JS object lookup `results[id]` (keys are unique by construction,
so the first matching entry is the entry). -/
def lookupStore {R : Type} : List (Nat × R) → Nat → Option R
  | [], _ => none
  | e :: es, j => if e.1 = j then some e.2 else lookupStore es j

/-- The batch loop: for each property in list order, fetch it and
overwrite its entry in the store.  The file is re-serialized to
`Object.values(results)` after every iteration, so the file after the
last processed property holds exactly `storeValues` of this store. -/
def runBatch {R : Type} (fetch : Property → R) (st : List (Nat × R)) :
    List Property → List (Nat × R)
  | [] => st
  | p :: ps => runBatch fetch (upsert st p.id (fetch p)) ps

/-- Serialization `Object.values(results)`: the form written to the
per-source result file. -/
def storeValues {R : Type} (st : List (Nat × R)) : List R :=
  st.map (fun e => e.2)

/-! ### Cross-source merge (fetch-all.js 77-102) -/

/-- The merged record for one property (fetch-all.js 93-102). -/
structure PortfolioRecord where
  id : Nat
  name : String
  brand : String
  city : String
  state : String
  address : String
  google : Option GSourceRecord
  tripadvisor : Option TASourceRecord
deriving Repr, DecidableEq

/-- The per-source lookup map built by `forEach (r => map[r.propertyId] = r)`
followed by `map[id] || null`: later records with the same propertyId
overwrite earlier ones, so the lookup yields the last match. -/
def indexBy {R : Type} (pid : R → Nat) : List R → Nat → Option R
  | [], _ => none
  | r :: rs, id =>
      match indexBy pid rs id with
      | some x => some x
      | none => if pid r = id then some r else none

/-- The merge (fetch-all.js 93-102): one record per property in
property-list order; each source field is the indexed lookup (records
are always truthy, so `|| null` only maps an absent key to null). -/
def mergePortfolio (properties : List Property) (googleData : List GSourceRecord)
    (taData : List TASourceRecord) : List PortfolioRecord :=
  properties.map fun p =>
    { id := p.id
      name := p.name
      brand := p.brand
      city := p.city
      state := p.state
      address := p.address
      google := indexBy GSourceRecord.propertyId googleData p.id
      tripadvisor := indexBy TASourceRecord.propertyId taData p.id }

/-! ### File system state and the fetch-all orchestrator (fetch-all.js) -/

/-- The on-disk state of one JSON file. -/
inductive FileState (α : Type) where
  | absent
  | present (content : α)
deriving Repr, DecidableEq

/-- The guarded reads of data/google.json and data/tripadvisor.json
(fetch-all.js 77-83): an absent file degrades to the empty list. -/
def fileToList {α : Type} : FileState (List α) → List α
  | .absent => []
  | .present l => l

/-- The unguarded read of properties.json (fetch-all.js 36-38,
fetch-tripadvisor.js 253-255, fetch-google.js 471-473):
`fs.readFileSync` throws when the file is absent. -/
def readProperties : FileState (List Property) → Except String (List Property)
  | .absent => .error "ENOENT: no such file or directory, open properties.json"
  | .present ps => .ok ps

/-- The merge step of fetch-all main (lines 36-38 and 73-102 as far as
portfolio construction): read properties.json (unguarded), read the two
per-source files (guarded), and build the portfolio. -/
def mergeStep (pf : FileState (List Property)) (gf : FileState (List GSourceRecord))
    (tf : FileState (List TASourceRecord)) : Except String (List PortfolioRecord) := do
  let props ← readProperties pf
  .ok (mergePortfolio props (fileToList gf) (fileToList tf))

/-- The process environment fields the orchestrator inspects. -/
structure Env where
  googleKey : Option String
  taKey : Option String
deriving Repr, DecidableEq

/-- Check `process.env.KEY && process.env.KEY !== placeholder`: the key is
configured when present, non-empty (JS truthiness) and not the
placeholder. -/
def keyConfigured (k : Option String) (placeholder : String) : Bool :=
  match k with
  | none => false
  | some s => if s = "" then false else if s = placeholder then false else true

/-- hasGoogle (fetch-all.js 30-31), and the negation of the Google
fetcher's own startup check (fetch-google.js 466-469). -/
def hasGoogleKey (env : Env) : Bool :=
  keyConfigured env.googleKey "your_google_places_api_key_here"

/-- hasTA (fetch-all.js 33-34), and the negation of the TripAdvisor
fetcher's own startup check (fetch-tripadvisor.js 242-245). -/
def hasTAKey (env : Env) : Bool :=
  keyConfigured env.taKey "your_tripadvisor_api_key_here"

/-- Seed the in-memory store from a possibly-absent prior result file
(`existing.forEach(p => results[p.propertyId] = p)`). -/
def seedStore {R : Type} (pid : R → Nat) (f : FileState (List R)) : List (Nat × R) :=
  (fileToList f).foldl (fun st r => upsert st (pid r) r) []

/-- main of fetch-google.js (465-505): throw on a missing/placeholder
key before anything else; otherwise read properties.json, seed from the
existing result file, run the batch, and leave the result file holding
the final serialized store.  `gfetch` abstracts one property's network
fetch (fetchPropertyG with that property's responses). -/
def googleMainRun (env : Env) (pf : FileState (List Property))
    (gf : FileState (List GSourceRecord)) (gfetch : Property → GSourceRecord) :
    Except String (FileState (List GSourceRecord)) :=
  if hasGoogleKey env = false then
    .error "Missing GOOGLE_PLACES_API_KEY in environment"
  else do
    let props ← readProperties pf
    .ok (.present (storeValues (runBatch gfetch (seedStore GSourceRecord.propertyId gf) props)))

/-- main of fetch-tripadvisor.js (241-284), same shape as
`googleMainRun`. -/
def taMainRun (env : Env) (pf : FileState (List Property))
    (tf : FileState (List TASourceRecord)) (tfetch : Property → TASourceRecord) :
    Except String (FileState (List TASourceRecord)) :=
  if hasTAKey env = false then
    .error "Missing TRIPADVISOR_API_KEY in environment"
  else do
    let props ← readProperties pf
    .ok (.present (storeValues (runBatch tfetch (seedStore TASourceRecord.propertyId tf) props)))

/-- The metadata summary written next to the portfolio (fetch-all.js
115-121); `lastFetch` (wall clock) omitted. -/
structure Metadata where
  propertyCount : Nat
  googleSuccess : Nat
  taSuccess : Nat
deriving Repr, DecidableEq

/-- Count `portfolio.filter(p => p.google && !p.google.error).length`. -/
def countGoogleSuccess (portfolio : List PortfolioRecord) : Nat :=
  (portfolio.filter fun rec =>
    match rec.google with
    | some g => g.error == none
    | none => false).length

/-- Count `portfolio.filter(p => p.tripadvisor && !p.tripadvisor.error).length`. -/
def countTASuccess (portfolio : List PortfolioRecord) : Nat :=
  (portfolio.filter fun rec =>
    match rec.tripadvisor with
    | some t => t.error == none
    | none => false).length

/-- Everything fetch-all main leaves behind on success: the two
per-source result files (as updated by whichever fetchers ran), the
portfolio file, and the metadata file. -/
structure FetchAllOutput where
  googleFile : FileState (List GSourceRecord)
  taFile : FileState (List TASourceRecord)
  portfolio : List PortfolioRecord
  metadata : Metadata
deriving Repr, DecidableEq

/-- main of fetch-all.js (29-135): read properties.json; run each
source's fetcher only when its key is configured, swallowing fetcher
errors (try/catch around each); then merge the current per-source files
into the portfolio and write metadata. -/
def fetchAllMain (env : Env) (pf : FileState (List Property))
    (gf : FileState (List GSourceRecord)) (tf : FileState (List TASourceRecord))
    (gfetch : Property → GSourceRecord) (tfetch : Property → TASourceRecord) :
    Except String FetchAllOutput := do
  let props ← readProperties pf
  let gf1 :=
    if hasGoogleKey env then
      match googleMainRun env pf gf gfetch with
      | .ok f => f
      | .error _ => gf
    else gf
  let tf1 :=
    if hasTAKey env then
      match taMainRun env pf tf tfetch with
      | .ok f => f
      | .error _ => tf
    else tf
  let portfolio := mergePortfolio props (fileToList gf1) (fileToList tf1)
  .ok
    { googleFile := gf1
      taFile := tf1
      portfolio := portfolio
      metadata :=
        { propertyCount := props.length
          googleSuccess := countGoogleSuccess portfolio
          taSuccess := countTASuccess portfolio } }

/-! ### Saved-folders store (server.js / its variant)

Both server variants carry identical loadPortfolios/savePortfolios
helpers and an identical duplicate check in the add-hotel route.  The
saved-portfolios.json content is modelled as a parsed JS value whose
`folders` key may be missing (`JSON.parse` performs no shape
validation). -/

/-- The TripAdvisor payload cached per saved hotel (shape produced by
server.js fetchTAHotelDetails; review/photo payloads are carried by the
fields the folder endpoints actually read). -/
structure TAHotelFull where
  locationId : Nat
  rating : Option Rat
  numReviews : Option Nat
deriving Repr, DecidableEq

/-- A review as cached by server.js fetchHotelDetails. -/
structure SrvReview where
  author : Option String
  rating : Option Rat
  text : Option String
  time : Option Int
  timeDescription : Option String
  profilePhoto : Option String
deriving Repr, DecidableEq

/-- A photo as cached by server.js fetchHotelDetails. -/
structure SrvPhoto where
  url : String
  width : Option Nat
  height : Option Nat
deriving Repr, DecidableEq

/-- The `cachedData` blob stored with a saved hotel. -/
structure CachedData where
  googleMapsUrl : Option String
  website : Option String
  phone : Option String
  reviews : List SrvReview
  photos : List SrvPhoto
  tripadvisor : Option TAHotelFull
deriving Repr, DecidableEq

/-- A saved hotel inside a folder; `savedAt`/`lastFetched` are the ISO
strings written at save time. -/
structure SavedHotel where
  placeId : String
  name : Option String
  address : Option String
  rating : Option Rat
  totalRatings : Option Nat
  lat : Option Rat
  lng : Option Rat
  numRooms : Option Nat
  savedAt : String
  lastFetched : String
  cachedData : Option CachedData
deriving Repr, DecidableEq

/-- A user-curated folder. -/
structure Folder where
  id : String
  name : String
  createdAt : String
  hotels : List SavedHotel
deriving Repr, DecidableEq

/-- A well-formed saved-folders document `{ folders: [...] }`. -/
structure FoldersState where
  folders : List Folder
deriving Repr, DecidableEq

/-- What `JSON.parse` of the saved-folders file can produce: any value;
the `folders` key may be missing or hold a folders array.  (Other JSON
shapes are indistinguishable from a missing `folders` key for every
consumer in the code, which only ever reads `.folders`.) -/
structure ParsedSavedFile where
  folders : Option (List Folder)
deriving Repr, DecidableEq

/-- The on-disk state of saved-portfolios.json. -/
inductive SavedFileState where
  | absent
  | unparseable
  | parsed (v : ParsedSavedFile)
deriving Repr, DecidableEq

/-- loadPortfolios (server.js 34-38 and its variant 41-45): an absent
file yields `{ folders: [] }`; a JSON.parse failure is caught and also
yields `{ folders: [] }`; a successful parse is returned as-is, with no
shape validation. -/
def loadPortfolios : SavedFileState → ParsedSavedFile
  | .absent => ⟨some []⟩
  | .unparseable => ⟨some []⟩
  | .parsed v => v

/-- The slim hotel projection of GET /api/folders (server.js 289-295). -/
structure SlimHotel where
  placeId : String
  name : Option String
  address : Option String
  rating : Option Rat
  totalRatings : Option Nat
  numRooms : Option Nat
  savedAt : String
  lastFetched : String
  lat : Option Rat
  lng : Option Rat
deriving Repr, DecidableEq

/-- The slim folder projection of GET /api/folders. -/
structure SlimFolder where
  id : String
  name : String
  createdAt : String
  hotels : List SlimHotel
deriving Repr, DecidableEq

/-- The per-hotel projection in GET /api/folders (`numRooms ?? null`
keeps 0; every other field is copied). -/
def slimHotel (h : SavedHotel) : SlimHotel where
  placeId := h.placeId
  name := h.name
  address := h.address
  rating := h.rating
  totalRatings := h.totalRatings
  numRooms := jsCoalesce h.numRooms none
  savedAt := h.savedAt
  lastFetched := h.lastFetched
  lat := h.lat
  lng := h.lng

/-- GET /api/folders (server.js 285-298): `data.folders.map(...)`.
When the loaded value has no `folders` array the `.map` access throws a
TypeError. -/
def getFoldersRoute (file : SavedFileState) : Except String (List SlimFolder) :=
  match (loadPortfolios file).folders with
  | none => .error "TypeError: Cannot read properties of undefined (reading map)"
  | some fs =>
      .ok (fs.map fun f =>
        { id := f.id, name := f.name, createdAt := f.createdAt
          hotels := f.hotels.map slimHotel })

/-! ### POST /api/folders/:id/hotels (server.js 322-353, variant 338-369)

The handler reads the store, validates, and only on the success path
mutates the found folder and calls savePortfolios.  The external
fetches (`fetchHotelDetails`, optional TripAdvisor details, room-count
lookup — Gemini in one variant, an LLM call in the other, both already
`.catch`-guarded to null) are supplied as parameters. -/

/-- The request body of the add-hotel route. -/
structure AddHotelRequest where
  placeId : Option String
  name : Option String
  address : Option String
  rating : Option Rat
  totalRatings : Option Nat
  taLocationId : Option Nat
deriving Repr, DecidableEq

/-- The Google details fetched for a hotel being saved (server.js
fetchHotelDetails return shape). -/
structure HotelFull where
  placeId : String
  name : Option String
  address : Option String
  rating : Option Rat
  totalRatings : Option Nat
  lat : Option Rat
  lng : Option Rat
  googleMapsUrl : Option String
  website : Option String
  phone : Option String
  reviews : List SrvReview
  photos : List SrvPhoto
deriving Repr, DecidableEq

/-- Outcome of one folder-route invocation: HTTP status, the persisted
store after the request, and whether savePortfolios ran (file write +
optional remote sync). -/
structure RouteOutcome where
  status : Nat
  store : FoldersState
  wrote : Bool
deriving Repr, DecidableEq

/-- Mutation of the first folder found by `data.folders.find(...)`:
push the hotel onto that folder's list. -/
def pushHotelFirst : List Folder → String → SavedHotel → List Folder
  | [], _, _ => []
  | f :: fs, fid, h =>
      if f.id = fid then { f with hotels := f.hotels ++ [h] } :: fs
      else f :: pushHotelFirst fs fid h

/-- The hotel record built on the success path (server.js 337-345):
`full.name || name`, `full.rating ?? rating`, the current timestamp for
savedAt/lastFetched (supplied as `now`), and the cached blob. -/
def buildSavedHotel (req : AddHotelRequest) (pid : String) (full : HotelFull)
    (taFull : Option TAHotelFull) (rooms : Option Nat) (now : String) : SavedHotel where
  placeId := pid
  name := jsOrStr full.name req.name
  address := jsOrStr full.address req.address
  rating := jsCoalesce full.rating req.rating
  totalRatings := jsCoalesce full.totalRatings req.totalRatings
  lat := full.lat
  lng := full.lng
  numRooms := rooms
  savedAt := now
  lastFetched := now
  cachedData := some
    { googleMapsUrl := full.googleMapsUrl
      website := full.website
      phone := full.phone
      reviews := full.reviews
      photos := full.photos
      tripadvisor := taFull }

/-- POST /api/folders/:id/hotels: 400 without a placeId; 404 when the
folder is missing; 409 (no write) when the folder already holds a hotel
with the same placeId; otherwise the fetched hotel is appended and the
store persisted (500, no write, if the Google fetch failed). -/
def addHotelRoute (st : FoldersState) (folderId : String) (req : AddHotelRequest)
    (fetched : Except String HotelFull) (taFull : Option TAHotelFull)
    (rooms : Option Nat) (now : String) : RouteOutcome :=
  match req.placeId with
  | none => ⟨400, st, false⟩
  | some pid =>
    match st.folders.find? (fun f => f.id == folderId) with
    | none => ⟨404, st, false⟩
    | some folder =>
      if folder.hotels.any (fun h => h.placeId == pid) then ⟨409, st, false⟩
      else
        match fetched with
        | .error _ => ⟨500, st, false⟩
        | .ok full =>
            ⟨201,
              ⟨pushHotelFirst st.folders folderId
                (buildSavedHotel req pid full taFull rooms now)⟩,
              true⟩

/-! ## Theorems -/

/-! ### C1: review pagination -/

theorem collectInWindow_fst (c : Int) (l : List TAReview) :
    (collectInWindow c l).1 = l.takeWhile (fun r => decide (c ≤ r.publishedDate)) := by
  induction l with
  | nil => rfl
  | cons r rs ih =>
    by_cases h : c ≤ r.publishedDate
    · simp [collectInWindow, h, List.takeWhile_cons, ih]
    · simp [collectInWindow, h, List.takeWhile_cons]

theorem collectInWindow_snd (c : Int) (l : List TAReview) :
    (collectInWindow c l).2 = !l.all (fun r => decide (c ≤ r.publishedDate)) := by
  induction l with
  | nil => rfl
  | cons r rs ih =>
    by_cases h : c ≤ r.publishedDate
    · simp [collectInWindow, h, ih]
    · simp [collectInWindow, h]

theorem takeWhile_append_all {α : Type} (p : α → Bool) (l1 l2 : List α)
    (h : l1.all p = true) : (l1 ++ l2).takeWhile p = l1 ++ l2.takeWhile p := by
  induction l1 with
  | nil => rfl
  | cons a l ih =>
    simp only [List.all_cons, Bool.and_eq_true] at h
    simp [List.takeWhile_cons, h.1, ih h.2]

theorem takeWhile_append_stop {α : Type} (p : α → Bool) (l1 l2 : List α)
    (h : l1.all p = false) : (l1 ++ l2).takeWhile p = l1.takeWhile p := by
  induction l1 with
  | nil => simp at h
  | cons a l ih =>
    by_cases ha : p a
    · simp only [List.all_cons, ha, Bool.true_and] at h
      simp [List.takeWhile_cons, ha, ih h]
    · simp [List.takeWhile_cons, ha]

theorem takeWhile_of_all {α : Type} (p : α → Bool) (l : List α) (h : l.all p = true) :
    l.takeWhile p = l := by
  induction l with
  | nil => rfl
  | cons a l ih =>
    simp only [List.all_cons, Bool.and_eq_true] at h
    simp [List.takeWhile_cons, h.1, ih h.2]

/-- The accumulated review set of the pagination loop, for page
sequences with no empty page (the loop treats the end of the sequence
as the API's final empty page): it is exactly the prefix of the
flattened page stream whose dates are at or after the cutoff. -/
theorem getLocationReviews_eq (c : Int) (pages : List (List TAReview))
    (hne : ∀ p ∈ pages, p ≠ []) :
    getLocationReviews c pages
      = pages.flatten.takeWhile (fun r => decide (c ≤ r.publishedDate)) := by
  induction pages with
  | nil => rfl
  | cons page rest ih =>
    have hpage : page ≠ [] := hne page (List.mem_cons_self _ _)
    have hrest : ∀ p ∈ rest, p ≠ [] := fun p hp => hne p (List.mem_cons_of_mem _ hp)
    have hie : page.isEmpty = false := by
      cases page with
      | nil => exact absurd rfl hpage
      | cons a l => rfl
    rw [List.flatten_cons]
    cases hall : page.all (fun r => decide (c ≤ r.publishedDate)) with
    | false =>
      have h2 : (collectInWindow c page).2 = true := by
        rw [collectInWindow_snd, hall]; rfl
      simp only [getLocationReviews, hie, Bool.false_eq_true, if_false, h2, if_true]
      rw [collectInWindow_fst, takeWhile_append_stop _ _ _ hall]
    | true =>
      have h2 : (collectInWindow c page).2 = false := by
        rw [collectInWindow_snd, hall]; rfl
      simp only [getLocationReviews, hie, Bool.false_eq_true, if_false, h2]
      rw [collectInWindow_fst, takeWhile_of_all _ _ hall,
        takeWhile_append_all _ _ _ hall, ih hrest]

/-- A review with only a published date set, for concrete inputs. -/
def sampleReview (d : Int) : TAReview :=
  ⟨0, none, none, none, d, none, none, none, none, none, none, none⟩

/-- Claim C1 (counterexample): with cutoff C = 0 and a single page
holding one review published exactly at C (descending order holds
trivially), the loop keeps the review (`pubDate >= cutoff`), while the
claimed set — the prefix of reviews strictly newer than C — is empty. -/
theorem c1_pagination_counterexample :
    getLocationReviews 0 [[sampleReview 0]] = [sampleReview 0] ∧
    specReviewWindow 0 [[sampleReview 0]] = [] ∧
    getLocationReviews 0 [[sampleReview 0]] ≠ specReviewWindow 0 [[sampleReview 0]] := by
  refine ⟨rfl, rfl, ?_⟩
  decide

/-- Claim C1 (amended): for pages of reviews in descending published
date order, none of them empty (pagination would stop at the first
empty page), the accumulated review set equals the prefix of all
reviews published at or after the cutoff C — inclusive, not strictly
newer — truncated at the first review strictly older than C; that
review and every review after it, including in-window reviews later in
the same page, are excluded. -/
theorem c1_pagination_amended (cutoff : Int) (pages : List (List TAReview))
    (_hdesc : pages.flatten.Pairwise (fun a b => b.publishedDate ≤ a.publishedDate))
    (hne : ∀ p ∈ pages, p ≠ []) :
    getLocationReviews cutoff pages
      = pages.flatten.takeWhile (fun r => decide (cutoff ≤ r.publishedDate)) :=
  getLocationReviews_eq cutoff pages hne

/-- Witness for C1: two descending nonempty pages, cutoff 0; the first
page is fully in-window, the second starts with an out-of-window
review, so pagination truncates there. -/
theorem c1_pagination_witness :
    getLocationReviews 0 [[sampleReview 5, sampleReview 3], [sampleReview (-1), sampleReview (-2)]]
      = [sampleReview 5, sampleReview 3] := by
  have h := c1_pagination_amended 0
    [[sampleReview 5, sampleReview 3], [sampleReview (-1), sampleReview (-2)]]
    (by decide) (by decide)
  rw [h]
  decide

/-! ### C2: merge totality -/

theorem indexBy_some {R : Type} (pid : R → Nat) (l : List R) (id : Nat) (r : R)
    (h : indexBy pid l id = some r) : pid r = id ∧ r ∈ l := by
  induction l with
  | nil => simp [indexBy] at h
  | cons x xs ih =>
    rw [indexBy] at h
    cases hx : indexBy pid xs id with
    | some y =>
      rw [hx] at h
      cases h
      have := ih hx
      exact ⟨this.1, List.mem_cons_of_mem _ this.2⟩
    | none =>
      rw [hx] at h
      by_cases hp : pid x = id
      · rw [if_pos hp] at h
        cases h
        exact ⟨hp, List.mem_cons_self _ _⟩
      · rw [if_neg hp] at h
        cases h

theorem indexBy_none {R : Type} (pid : R → Nat) (l : List R) (id : Nat)
    (h : ∀ r ∈ l, pid r ≠ id) : indexBy pid l id = none := by
  induction l with
  | nil => rfl
  | cons x xs ih =>
    rw [indexBy, ih (fun r hr => h r (List.mem_cons_of_mem _ hr)),
      if_neg (h x (List.mem_cons_self _ _))]

/-- Claim C2 (confirmed): the merge yields exactly one PortfolioRecord
per property, in property-list order; the `google`/`tripadvisor` fields
are the per-source indexed lookup — a SourceRecord with the matching
propertyId when one exists in that source's (possibly absent) file,
`none` otherwise — and are always present as fields, never erroring. -/
theorem c2_merge_totality (props : List Property)
    (gf : FileState (List GSourceRecord)) (tf : FileState (List TASourceRecord)) :
    (mergePortfolio props (fileToList gf) (fileToList tf)).length = props.length ∧
    (∀ (i : Nat) (p : Property), props[i]? = some p →
      ∃ rec : PortfolioRecord,
        (mergePortfolio props (fileToList gf) (fileToList tf))[i]? = some rec ∧
        rec.id = p.id ∧ rec.name = p.name ∧ rec.brand = p.brand ∧ rec.city = p.city ∧
        rec.state = p.state ∧ rec.address = p.address ∧
        rec.google = indexBy GSourceRecord.propertyId (fileToList gf) p.id ∧
        rec.tripadvisor = indexBy TASourceRecord.propertyId (fileToList tf) p.id ∧
        (∀ g, rec.google = some g → g.propertyId = p.id ∧ g ∈ fileToList gf) ∧
        ((∀ g ∈ fileToList gf, g.propertyId ≠ p.id) → rec.google = none) ∧
        (∀ t, rec.tripadvisor = some t → t.propertyId = p.id ∧ t ∈ fileToList tf) ∧
        ((∀ t ∈ fileToList tf, t.propertyId ≠ p.id) → rec.tripadvisor = none) ∧
        (gf = FileState.absent → rec.google = none) ∧
        (tf = FileState.absent → rec.tripadvisor = none)) := by
  constructor
  · simp [mergePortfolio]
  · intro i p hp
    have hget : (mergePortfolio props (fileToList gf) (fileToList tf))[i]?
        = some { id := p.id, name := p.name, brand := p.brand, city := p.city
                 state := p.state, address := p.address
                 google := indexBy GSourceRecord.propertyId (fileToList gf) p.id
                 tripadvisor := indexBy TASourceRecord.propertyId (fileToList tf) p.id } := by
      rw [mergePortfolio, List.getElem?_map, hp]
      rfl
    refine ⟨_, hget, rfl, rfl, rfl, rfl, rfl, rfl, rfl, rfl, ?_, ?_, ?_, ?_, ?_, ?_⟩
    · exact fun g hg => indexBy_some _ _ _ _ hg
    · exact fun h => indexBy_none _ _ _ h
    · exact fun t ht => indexBy_some _ _ _ _ ht
    · exact fun h => indexBy_none _ _ _ h
    · intro h; subst h; rfl
    · intro h; subst h; rfl

/-- A concrete property for witnesses. -/
def samplePropertyA : Property :=
  ⟨1, "Hotel A", "BrandX", "Paris", "PR", "1 Rue", "Hotel A Paris", "Hotel A Paris"⟩

/-- A second concrete property for witnesses. -/
def samplePropertyB : Property :=
  ⟨2, "Hotel B", "BrandX", "Nice", "NI", "2 Rue", "Hotel B Nice", "Hotel B Nice"⟩

/-- A concrete error-shaped Google SourceRecord for property 1. -/
def sampleGRecordA : GSourceRecord := mkErrorRecordG 1 "sample"

/-- Witness for C2: property list with two properties, a Google file
holding only property 1's record, and an absent TripAdvisor file; the
merge yields two records, record 1 carrying the Google record and
record 2 carrying null for both sources. -/
theorem c2_merge_totality_witness :
    ∃ rec1 rec2 : PortfolioRecord,
      (mergePortfolio [samplePropertyA, samplePropertyB] [sampleGRecordA] [])[0]? = some rec1 ∧
      (mergePortfolio [samplePropertyA, samplePropertyB] [sampleGRecordA] [])[1]? = some rec2 ∧
      rec1.google = some sampleGRecordA ∧ rec1.tripadvisor = none ∧
      rec2.google = none ∧ rec2.tripadvisor = none := by
  obtain ⟨-, h⟩ := c2_merge_totality [samplePropertyA, samplePropertyB]
    (FileState.present [sampleGRecordA]) FileState.absent
  obtain ⟨rec1, hget1, -, -, -, -, -, -, hg1, ht1, -⟩ := h 0 samplePropertyA rfl
  obtain ⟨rec2, hget2, -, -, -, -, -, -, hg2, ht2, -⟩ := h 1 samplePropertyB rfl
  refine ⟨rec1, rec2, hget1, hget2, ?_, ?_, ?_, ?_⟩
  · rw [hg1]; rfl
  · rw [ht1]; rfl
  · rw [hg2]; rfl
  · rw [ht2]; rfl

/-! ### C3: per-property failure isolation -/

/-- Claim C3 (confirmed): whenever any step of a per-property pipeline
fails, fetchProperty returns (never throws) exactly the error-tagged
SourceRecord — `error` is the exception's message, `reviews` and
`photos` are empty, and every other optional field is unset; in
particular a zero-result identity search produces exactly that record,
for both the TripAdvisor and the Google pipeline. -/
theorem c3_failure_policy :
    (∀ (property : Property) (cutoff : Int) (env : TAEnv) (e : ApiError),
      taBody property cutoff env = Except.error e →
        (fetchPropertyTA property cutoff env).record = mkErrorRecordTA property.id e.message) ∧
    (∀ (pid : Nat) (msg : String),
      (mkErrorRecordTA pid msg).propertyId = pid ∧
      (mkErrorRecordTA pid msg).error = some msg ∧
      (mkErrorRecordTA pid msg).reviews = [] ∧
      (mkErrorRecordTA pid msg).photos = [] ∧
      (mkErrorRecordTA pid msg).locationId = none ∧
      (mkErrorRecordTA pid msg).locationIdStr = none ∧
      (mkErrorRecordTA pid msg).tripadvisorUrl = none ∧
      (mkErrorRecordTA pid msg).name = none ∧
      (mkErrorRecordTA pid msg).address = none ∧
      (mkErrorRecordTA pid msg).rating = none ∧
      (mkErrorRecordTA pid msg).numReviews = none ∧
      (mkErrorRecordTA pid msg).rankingString = none ∧
      (mkErrorRecordTA pid msg).rankingCategory = none ∧
      (mkErrorRecordTA pid msg).priceLevel = none ∧
      (mkErrorRecordTA pid msg).priceRange = none ∧
      (mkErrorRecordTA pid msg).numRooms = none ∧
      (mkErrorRecordTA pid msg).subratings = [] ∧
      (mkErrorRecordTA pid msg).awardedBadges = []) ∧
    (∀ (property : Property) (env : GEnv) (e : ApiError),
      gBody property env = Except.error e →
        (fetchPropertyG property env).record = mkErrorRecordG property.id e.message) ∧
    (∀ (pid : Nat) (msg : String),
      (mkErrorRecordG pid msg).propertyId = pid ∧
      (mkErrorRecordG pid msg).error = some msg ∧
      (mkErrorRecordG pid msg).reviews = [] ∧
      (mkErrorRecordG pid msg).photos = [] ∧
      (mkErrorRecordG pid msg).placeId = none ∧
      (mkErrorRecordG pid msg).googleMapsUrl = none ∧
      (mkErrorRecordG pid msg).website = none ∧
      (mkErrorRecordG pid msg).phone = none ∧
      (mkErrorRecordG pid msg).rating = none ∧
      (mkErrorRecordG pid msg).totalRatings = none ∧
      (mkErrorRecordG pid msg).address = none ∧
      (mkErrorRecordG pid msg).rawName = none) ∧
    (∀ (property : Property) (cutoff : Int) (env : TAEnv),
      env.searchResponse = Except.ok [] →
        taBody property cutoff env = Except.error
          ⟨"No TripAdvisor results for \"" ++ property.tripadvisorQuery ++ "\"", none⟩) ∧
    (∀ (property : Property) (env : GEnv),
      env.searchResponse = Except.ok [] →
        gBody property env = Except.error
          ⟨"No results found for \"" ++ property.googleQuery ++ "\"", none⟩) := by
  refine ⟨?_, ?_, ?_, ?_, ?_, ?_⟩
  · intro property cutoff env e h
    rw [fetchPropertyTA, h]
  · intro pid msg
    exact ⟨rfl, rfl, rfl, rfl, rfl, rfl, rfl, rfl, rfl, rfl, rfl, rfl, rfl, rfl, rfl, rfl, rfl, rfl⟩
  · intro property env e h
    rw [fetchPropertyG, h]
  · intro pid msg
    exact ⟨rfl, rfl, rfl, rfl, rfl, rfl, rfl, rfl, rfl, rfl, rfl, rfl⟩
  · intro property cutoff env h
    rw [taBody, searchLocation, h]
  · intro property env h
    rw [gBody, findPlaceId, h]

/-- A TripAdvisor environment whose identity search returns zero
results (the other endpoints would succeed with empty payloads). -/
def taEnvNoResults : TAEnv :=
  ⟨Except.ok [], Except.ok ⟨none, none, none, none, none, none, none, none, none, none,
    none, none⟩, Except.ok [], Except.ok []⟩

/-- Witness for C3: for the concrete zero-result environment, the
TripAdvisor pipeline returns the error-tagged record with empty
reviews/photos. -/
theorem c3_failure_policy_witness :
    (fetchPropertyTA samplePropertyA 0 taEnvNoResults).record
      = mkErrorRecordTA 1 "No TripAdvisor results for \"Hotel A Paris\"" ∧
    (fetchPropertyTA samplePropertyA 0 taEnvNoResults).record.reviews = [] ∧
    (fetchPropertyTA samplePropertyA 0 taEnvNoResults).record.photos = [] := by
  have hbody := (c3_failure_policy.2.2.2.2.1) samplePropertyA 0 taEnvNoResults rfl
  have hrec := (c3_failure_policy.1) samplePropertyA 0 taEnvNoResults _ hbody
  exact ⟨hrec, by rw [hrec]; rfl, by rw [hrec]; rfl⟩

/-! ### C7: 429 handling -/

/-- Claim C7 (amended): on a failure whose HTTP status is 429 the
TripAdvisor pipeline sleeps the fixed 10-second cool-down and then
surfaces the error-tagged record (the property stays failed for the
run; the pipeline is invoked once per property, so no retry occurs);
the Google pipeline performs no extra cool-down on any failure,
including 429. -/
theorem c7_rate_limit_amended :
    (∀ (property : Property) (cutoff : Int) (env : TAEnv) (e : ApiError),
      taBody property cutoff env = Except.error e → e.status = some 429 →
        fetchPropertyTA property cutoff env
          = ⟨mkErrorRecordTA property.id e.message, some 10000⟩) ∧
    (∀ (property : Property) (env : GEnv),
      (fetchPropertyG property env).coolDownMs = none) := by
  constructor
  · intro property cutoff env e h h429
    simp [fetchPropertyTA, h, h429]
  · intro property env
    rw [fetchPropertyG]
    cases gBody property env <;> rfl

/-- The error an axios client surfaces for an HTTP 429 response. -/
def rateLimitError : ApiError := ⟨"Request failed with status code 429", some 429⟩

/-- A TripAdvisor environment whose first call is rate-limited. -/
def taEnv429 : TAEnv :=
  ⟨Except.error rateLimitError, Except.error rateLimitError,
    Except.error rateLimitError, Except.error rateLimitError⟩

/-- A Google environment whose first call is rate-limited. -/
def gEnv429 : GEnv := ⟨"key", Except.error rateLimitError, Except.error rateLimitError⟩

/-- Witness for C7: the TripAdvisor pipeline hit by a 429 returns the
failure after the 10000 ms cool-down. -/
theorem c7_rate_limit_witness :
    fetchPropertyTA samplePropertyA 0 taEnv429
      = ⟨mkErrorRecordTA 1 "Request failed with status code 429", some 10000⟩ :=
  c7_rate_limit_amended.1 samplePropertyA 0 taEnv429 rateLimitError rfl rfl

/-- Claim C7 (counterexample): the Google per-property pipeline hit by
an HTTP 429 returns the failure immediately — no ten-second cool-down
is performed — refuting the claim for "every per-property fetch
pipeline of the system". -/
theorem c7_rate_limit_counterexample :
    (fetchPropertyG samplePropertyA gEnv429).record.error
      = some "Request failed with status code 429" ∧
    (fetchPropertyG samplePropertyA gEnv429).coolDownMs = none := ⟨rfl, rfl⟩

/-! ### C4: incremental store and resume -/

theorem lookup_upsert {R : Type} (st : List (Nat × R)) (id : Nat) (r : R) (j : Nat) :
    lookupStore (upsert st id r) j = if j = id then some r else lookupStore st j := by
  induction st with
  | nil =>
    simp only [upsert, lookupStore]
    by_cases h : j = id
    · rw [if_pos h.symm, if_pos h]
    · rw [if_neg (fun hh => h hh.symm), if_neg h]
  | cons e es ih =>
    by_cases he : e.1 = id
    · subst he
      simp only [upsert, if_pos rfl, lookupStore]
      by_cases h : e.1 = j
      · rw [if_pos h, if_pos h.symm]
      · rw [if_neg h, if_neg (fun hh => h hh.symm), if_neg h]
    · simp only [upsert, if_neg he, lookupStore]
      by_cases hej : e.1 = j
      · have hji : ¬ j = id := fun hh => he (by rw [hej, hh])
        rw [if_pos hej, if_neg hji, if_pos hej]
      · rw [if_neg hej, ih, if_neg hej]

theorem runBatch_append {R : Type} (fetch : Property → R) (st : List (Nat × R))
    (l1 l2 : List Property) :
    runBatch fetch st (l1 ++ l2) = runBatch fetch (runBatch fetch st l1) l2 := by
  induction l1 generalizing st with
  | nil => rfl
  | cons p ps ih =>
    simp only [List.cons_append, runBatch]
    exact ih _

/-- Lookup in the store left by the batch loop: the id of a processed
property maps to the record fetched at its last occurrence in the
processed list; every other id keeps its prior entry. -/
theorem runBatch_lookup {R : Type} (fetch : Property → R) (st : List (Nat × R))
    (props : List Property) (id : Nat) :
    lookupStore (runBatch fetch st props) id
      = match (props.filter fun p => p.id == id).getLast? with
        | some p => some (fetch p)
        | none => lookupStore st id := by
  induction props using List.reverseRecOn with
  | nil => rfl
  | append_singleton l p ih =>
    rw [runBatch_append]
    show lookupStore (upsert (runBatch fetch st l) p.id (fetch p)) id = _
    rw [lookup_upsert, List.filter_append]
    by_cases hp : p.id = id
    · have hf : List.filter (fun p => p.id == id) [p] = [p] := by simp [List.filter, hp]
      rw [hf, List.getLast?_concat, if_pos hp.symm]
    · have hb : (p.id == id) = false := by simp [hp]
      have hf : List.filter (fun p => p.id == id) [p] = [] := by simp [List.filter, hb]
      rw [hf, List.append_nil, if_neg (fun hh => hp hh.symm), ih]

/-- Claim C4 (confirmed): the batch loop processes properties in list
order, overwriting each processed property's store entry with this
run's freshly fetched record (whole-record replacement, success or
failure), and the store is re-serialized after every property; a run
interrupted after the first k properties (`props.take k`) therefore
maps each processed id to this run's record for its last occurrence
among the first k, leaves every never-reached id at its pre-run entry,
and never loses a previously stored record. -/
theorem c4_incremental_resume (envOf : Property → TAEnv) (cutoff : Int)
    (prior : List (Nat × TASourceRecord)) (props : List Property) (k : Nat) :
    (∀ id : Nat,
      lookupStore (runBatch (fun p => (fetchPropertyTA p cutoff (envOf p)).record)
          prior (props.take k)) id
        = match ((props.take k).filter fun p => p.id == id).getLast? with
          | some p => some ((fetchPropertyTA p cutoff (envOf p)).record)
          | none => lookupStore prior id) ∧
    (∀ id : Nat, (lookupStore prior id).isSome = true →
      (lookupStore (runBatch (fun p => (fetchPropertyTA p cutoff (envOf p)).record)
          prior (props.take k)) id).isSome = true) := by
  constructor
  · intro id
    exact runBatch_lookup _ _ _ _
  · intro id h
    rw [runBatch_lookup]
    cases hl : ((props.take k).filter fun p => p.id == id).getLast? with
    | some p => rfl
    | none => exact h

/-- A prior store holding a record for the never-reached property 7. -/
def priorStoreSample : List (Nat × TASourceRecord) := [(7, mkErrorRecordTA 7 "old")]

/-- Witness for C4: with a prior store holding property 7 and a run
interrupted after 1 of 2 properties, property 1 carries this run's
record, property 7 keeps its pre-run record, and property 2 is absent. -/
theorem c4_incremental_resume_witness :
    lookupStore (runBatch (fun p => (fetchPropertyTA p 0 taEnvNoResults).record)
        priorStoreSample ([samplePropertyA, samplePropertyB].take 1)) 7
      = some (mkErrorRecordTA 7 "old") ∧
    lookupStore (runBatch (fun p => (fetchPropertyTA p 0 taEnvNoResults).record)
        priorStoreSample ([samplePropertyA, samplePropertyB].take 1)) 1
      = some (mkErrorRecordTA 1 "No TripAdvisor results for \"Hotel A Paris\"") ∧
    lookupStore (runBatch (fun p => (fetchPropertyTA p 0 taEnvNoResults).record)
        priorStoreSample ([samplePropertyA, samplePropertyB].take 1)) 2
      = none := by
  have h := c4_incremental_resume (fun _ => taEnvNoResults) 0 priorStoreSample
    [samplePropertyA, samplePropertyB] 1
  exact ⟨(h.1 7).trans (by rfl), (h.1 1).trans (by rfl), (h.1 2).trans (by rfl)⟩

/-! ### C5: merge behavior on absent inputs -/

/-- Claim C5 (counterexample): with properties.json absent (and both
per-source files present), the merge step throws the file-read error —
the properties.json read at the top of fetch-all main is not guarded by
an existence check, unlike the two per-source reads. -/
theorem c5_merge_counterexample :
    mergeStep FileState.absent (FileState.present []) (FileState.present [])
      = Except.error "ENOENT: no such file or directory, open properties.json" := rfl

/-- Claim C5 (amended): whenever the property-list config file is
present, the merge never raises: either or both per-source result
files being absent degrades to an empty view for the missing source
and the merge still produces its output; absence of the property-list
config file itself, however, raises the unguarded read error. -/
theorem c5_merge_amended (props : List Property)
    (gf : FileState (List GSourceRecord)) (tf : FileState (List TASourceRecord)) :
    mergeStep (FileState.present props) gf tf
      = Except.ok (mergePortfolio props (fileToList gf) (fileToList tf)) ∧
    mergeStep (FileState.present props) FileState.absent FileState.absent
      = Except.ok (mergePortfolio props [] []) ∧
    (∀ gl tl, mergeStep (FileState.present props) (FileState.present gl) (FileState.present tl)
      = Except.ok (mergePortfolio props gl tl)) := by
  exact ⟨rfl, rfl, fun gl tl => rfl⟩

/-! ### C6: missing-credential behavior -/

/-- An environment with no API keys configured. -/
def envNoKeys : Env := ⟨none, none⟩

/-- Claim C6 (counterexample): with both API keys missing, the
orchestrator does not abort — it skips both fetchers and still
produces the merge output (an Except.ok result carrying a portfolio
record for the property, with both sources null). -/
theorem c6_credential_counterexample :
    fetchAllMain envNoKeys (FileState.present [samplePropertyA])
        FileState.absent FileState.absent
        (fun p => mkErrorRecordG p.id "unused") (fun p => mkErrorRecordTA p.id "unused")
      = Except.ok
          { googleFile := FileState.absent
            taFile := FileState.absent
            portfolio := [⟨1, "Hotel A", "BrandX", "Paris", "PR", "1 Rue", none, none⟩]
            metadata := ⟨1, 0, 0⟩ } := rfl

/-- With its key configured and the property list readable, the
standalone TripAdvisor fetcher main succeeds and leaves its result
file holding the serialized store of this run's batch. -/
theorem taMainRun_success (env : Env) (pf : FileState (List Property))
    (props : List Property) (tf : FileState (List TASourceRecord))
    (tfetch : Property → TASourceRecord)
    (ht : hasTAKey env = true) (hp : readProperties pf = Except.ok props) :
    taMainRun env pf tf tfetch
      = Except.ok (FileState.present
          (storeValues (runBatch tfetch (seedStore TASourceRecord.propertyId tf) props))) := by
  rw [taMainRun, if_neg (by simp [ht]), hp]
  rfl

/-- Google analogue of `taMainRun_success`. -/
theorem googleMainRun_success (env : Env) (pf : FileState (List Property))
    (props : List Property) (gf : FileState (List GSourceRecord))
    (gfetch : Property → GSourceRecord)
    (hg : hasGoogleKey env = true) (hp : readProperties pf = Except.ok props) :
    googleMainRun env pf gf gfetch
      = Except.ok (FileState.present
          (storeValues (runBatch gfetch (seedStore GSourceRecord.propertyId gf) props))) := by
  rw [googleMainRun, if_neg (by simp [hg]), hp]
  rfl

/-- Claim C6 (amended): per source, when that source's required API key
is absent or still its placeholder, the standalone fetcher for the
source raises the missing-credential error before fetching anything;
the orchestrator, by contrast, does not raise — it skips only that
source's fetcher, leaves that source's result file unchanged (no fetch
for it), still runs the other source's fetcher when its key is
configured (and leaves its file alone when not), and still runs the
merge and produces the portfolio and metadata output. -/
theorem c6_credential_amended :
    (∀ (env : Env) (pf : FileState (List Property)) (props : List Property)
        (gf : FileState (List GSourceRecord)) (tf : FileState (List TASourceRecord))
        (gfetch : Property → GSourceRecord) (tfetch : Property → TASourceRecord),
      readProperties pf = Except.ok props →
      hasGoogleKey env = false →
        googleMainRun env pf gf gfetch
          = Except.error "Missing GOOGLE_PLACES_API_KEY in environment" ∧
        ∃ out : FetchAllOutput,
          fetchAllMain env pf gf tf gfetch tfetch = Except.ok out ∧
          out.googleFile = gf ∧
          out.portfolio = mergePortfolio props (fileToList gf) (fileToList out.taFile) ∧
          out.metadata.propertyCount = props.length ∧
          (hasTAKey env = true → out.taFile = FileState.present
            (storeValues (runBatch tfetch (seedStore TASourceRecord.propertyId tf) props))) ∧
          (hasTAKey env = false → out.taFile = tf)) ∧
    (∀ (env : Env) (pf : FileState (List Property)) (props : List Property)
        (gf : FileState (List GSourceRecord)) (tf : FileState (List TASourceRecord))
        (gfetch : Property → GSourceRecord) (tfetch : Property → TASourceRecord),
      readProperties pf = Except.ok props →
      hasTAKey env = false →
        taMainRun env pf tf tfetch
          = Except.error "Missing TRIPADVISOR_API_KEY in environment" ∧
        ∃ out : FetchAllOutput,
          fetchAllMain env pf gf tf gfetch tfetch = Except.ok out ∧
          out.taFile = tf ∧
          out.portfolio = mergePortfolio props (fileToList out.googleFile) (fileToList tf) ∧
          out.metadata.propertyCount = props.length ∧
          (hasGoogleKey env = true → out.googleFile = FileState.present
            (storeValues (runBatch gfetch (seedStore GSourceRecord.propertyId gf) props))) ∧
          (hasGoogleKey env = false → out.googleFile = gf)) := by
  constructor
  · intro env pf props gf tf gfetch tfetch hp hg
    refine ⟨by rw [googleMainRun, hg]; rfl, ?_⟩
    rw [fetchAllMain, hp]
    simp only [hg, Bool.false_eq_true, if_false]
    refine ⟨_, rfl, rfl, rfl, rfl, ?_, ?_⟩
    · intro ht
      rw [if_pos ht, taMainRun_success env pf props tf tfetch ht hp]
    · intro ht2
      rw [if_neg (by simp [ht2])]
  · intro env pf props gf tf gfetch tfetch hp ht
    refine ⟨by rw [taMainRun, ht]; rfl, ?_⟩
    rw [fetchAllMain, hp]
    simp only [ht, Bool.false_eq_true, if_false]
    refine ⟨_, rfl, rfl, rfl, rfl, ?_, ?_⟩
    · intro hg
      rw [if_pos hg, googleMainRun_success env pf props gf gfetch hg hp]
    · intro hg2
      rw [if_neg (by simp [hg2])]

/-- Witness for C6: the Google key is still its placeholder while the
TripAdvisor key is configured; the standalone Google fetcher aborts
with the missing-credential error, and the orchestrator leaves
google.json untouched, runs the TripAdvisor fetcher over the one
property, and still produces the merged portfolio and metadata. -/
theorem c6_credential_witness :
    googleMainRun ⟨some "your_google_places_api_key_here", some "takey"⟩
        (FileState.present [samplePropertyA]) FileState.absent
        (fun p => mkErrorRecordG p.id "unused")
      = Except.error "Missing GOOGLE_PLACES_API_KEY in environment" ∧
    fetchAllMain ⟨some "your_google_places_api_key_here", some "takey"⟩
        (FileState.present [samplePropertyA]) FileState.absent FileState.absent
        (fun p => mkErrorRecordG p.id "unused") (fun p => mkErrorRecordTA p.id "fetched")
      = Except.ok
          { googleFile := FileState.absent
            taFile := FileState.present [mkErrorRecordTA 1 "fetched"]
            portfolio := [⟨1, "Hotel A", "BrandX", "Paris", "PR", "1 Rue", none,
              some (mkErrorRecordTA 1 "fetched")⟩]
            metadata := ⟨1, 0, 0⟩ } := by
  have h := c6_credential_amended.1 ⟨some "your_google_places_api_key_here", some "takey"⟩
    (FileState.present [samplePropertyA]) [samplePropertyA] FileState.absent FileState.absent
    (fun p => mkErrorRecordG p.id "unused") (fun p => mkErrorRecordTA p.id "fetched")
    rfl rfl
  exact ⟨h.1, rfl⟩

/-! ### C8: duplicate hotel add is rejected without mutation -/

/-- Claim C8 (confirmed): when the target folder already contains a
hotel with the requested platform id, the add-hotel route answers 409,
performs no savePortfolios call (no file write), and the persisted
folders state — in particular the folder's hotel list — is returned
unchanged.  The duplicate check runs before the external fetches and
before any mutation, in both server variants (identical logic). -/
theorem c8_duplicate_rejected (st : FoldersState) (folderId : String)
    (req : AddHotelRequest) (pid : String) (folder : Folder)
    (fetched : Except String HotelFull) (taFull : Option TAHotelFull)
    (rooms : Option Nat) (now : String)
    (hpid : req.placeId = some pid)
    (hfind : st.folders.find? (fun f => f.id == folderId) = some folder)
    (hdup : folder.hotels.any (fun h => h.placeId == pid) = true) :
    addHotelRoute st folderId req fetched taFull rooms now = ⟨409, st, false⟩ := by
  rw [addHotelRoute, hpid, hfind]
  simp [hdup]

/-- A folder already holding the hotel with placeId "p1". -/
def folderSample : Folder :=
  ⟨"f_1", "My folder", "2026-01-01",
    [⟨"p1", some "Hotel A", none, none, none, none, none, none, "2026-01-01", "2026-01-01", none⟩]⟩

/-- Witness for C8: adding placeId "p1" to the folder that already
holds it yields 409 with the store unchanged and no write, even though
the fetch would have succeeded. -/
theorem c8_duplicate_rejected_witness :
    addHotelRoute ⟨[folderSample]⟩ "f_1"
        ⟨some "p1", some "Hotel A", none, none, none, none⟩
        (Except.ok ⟨"p1", some "Hotel A", none, none, none, none, none, none, none, none, [], []⟩)
        none none "2026-02-02"
      = ⟨409, ⟨[folderSample]⟩, false⟩ :=
  c8_duplicate_rejected ⟨[folderSample]⟩ "f_1"
    ⟨some "p1", some "Hotel A", none, none, none, none⟩ "p1" folderSample
    (Except.ok ⟨"p1", some "Hotel A", none, none, none, none, none, none, none, none, [], []⟩)
    none none "2026-02-02" rfl rfl rfl

/-! ### C10: loading the saved-folders state -/

/-- Claim C10 (counterexample): a saved-folders file holding valid JSON
without a folders array is returned by loadPortfolios unvalidated, and
the folders endpoint then fails on `data.folders.map` — corruption that
parses as JSON does not leave every endpoint with a well-formed folders
object. -/
theorem c10_load_counterexample :
    loadPortfolios (SavedFileState.parsed ⟨none⟩) = ⟨none⟩ ∧
    getFoldersRoute (SavedFileState.parsed ⟨none⟩)
      = Except.error "TypeError: Cannot read properties of undefined (reading map)" :=
  ⟨rfl, rfl⟩

/-- Claim C10 (amended): loadPortfolios is total and never throws: the
empty state `{ folders: [] }` when the file is absent or unparseable,
and the parsed value as-is (unvalidated) otherwise; consequently every
folder endpoint operates on a well-formed folders object whenever the
file is absent, unparseable, or parses to an object with a folders
array — but a valid-JSON file without a folders array reaches the
endpoints unvalidated. -/
theorem c10_load_total_amended :
    loadPortfolios SavedFileState.absent = ⟨some []⟩ ∧
    loadPortfolios SavedFileState.unparseable = ⟨some []⟩ ∧
    (∀ v : ParsedSavedFile, loadPortfolios (SavedFileState.parsed v) = v) ∧
    (∀ file : SavedFileState, (loadPortfolios file).folders.isSome = true →
      ∃ out, getFoldersRoute file = Except.ok out) := by
  refine ⟨rfl, rfl, fun v => rfl, ?_⟩
  intro file h
  rw [getFoldersRoute]
  cases hf : (loadPortfolios file).folders with
  | some fs => exact ⟨_, rfl⟩
  | none => rw [hf] at h; cases h

/-- Witness for C10: the absent and unparseable states both load the
empty store, on which the folders endpoint answers the empty list. -/
theorem c10_load_total_witness :
    getFoldersRoute SavedFileState.absent = Except.ok [] ∧
    getFoldersRoute SavedFileState.unparseable = Except.ok [] := by
  obtain ⟨-, -, -, h⟩ := c10_load_total_amended
  obtain ⟨out1, h1⟩ := h SavedFileState.absent rfl
  obtain ⟨out2, h2⟩ := h SavedFileState.unparseable rfl
  exact ⟨rfl, rfl⟩

/-! ### C9: defensive numeric parsing -/

/-- Claim C9 (counterexample): the rating string "0" parses to the
number 0, yet `parseFloat(...) || null` normalizes it to null instead
of the parsed float (0 is falsy in JS); and an invalid subrating value
string is kept as parseFloat's NaN, not mapped to null. -/
theorem c9_numeric_counterexample :
    jsParseFloat (some "0") = JNum.num 0 ∧
    normalizeRating (some "0") = none ∧
    parseSubratings (some [("cleanliness", ⟨some "Cleanliness", some "bad-input"⟩)])
      = [("cleanliness", ⟨some "Cleanliness", JNum.nan⟩)] := by
  refine ⟨by decide, by decide, by decide⟩

/-- Claim C9 (amended): normalization is total (never throws); the
normalized overall rating is the parsed float when the input parses to
a nonzero number, and null when the input is missing, invalid, or
parses to 0 (the JS `||` treats 0 as falsy); each subrating value is
the raw parseFloat result — the parsed float when valid and NaN (not an
in-memory null) when missing or invalid; and on any successful
TripAdvisor pipeline run the record's rating and subratings are exactly
these normalizations of the details response. -/
theorem c9_numeric_amended :
    (∀ (s : String) (q : Rat), jsParseFloatStr s = JNum.num q → q ≠ 0 →
      normalizeRating (some s) = some q) ∧
    (∀ s : Option String, jsParseFloat s = JNum.nan → normalizeRating s = none) ∧
    (∀ s : Option String, jsParseFloat s = JNum.num 0 → normalizeRating s = none) ∧
    (normalizeRating none = none) ∧
    (∀ l : List (String × TASubrating), parseSubratings (some l)
      = l.map fun kv => (kv.1, ⟨kv.2.localizedName, jsParseFloat kv.2.value⟩)) ∧
    (∀ (property : Property) (cutoff : Int) (env : TAEnv) (rec : TASourceRecord)
      (details : TADetails),
      env.detailsResponse = Except.ok details →
      taBody property cutoff env = Except.ok rec →
        rec.rating = normalizeRating details.rating ∧
        rec.subratings = parseSubratings details.subratings) := by
  refine ⟨?_, ?_, ?_, rfl, fun l => rfl, ?_⟩
  · intro s q h hq
    rw [normalizeRating]
    show jsOrNull (jsParseFloatStr s) = some q
    rw [h]
    simp [jsOrNull, hq]
  · intro s h
    rw [normalizeRating, h]
    rfl
  · intro s h
    rw [normalizeRating, h]
    simp [jsOrNull]
  · intro property cutoff env rec details hdet hbody
    rw [taBody] at hbody
    cases hs : searchLocation env property with
    | error e =>
      simp only [hs] at hbody
      exact Except.noConfusion hbody
    | ok location =>
      simp only [hs, hdet] at hbody
      cases hr : env.reviewPages with
      | error e =>
        simp only [hr] at hbody
        exact Except.noConfusion hbody
      | ok pages =>
        simp only [hr] at hbody
        cases hp : env.photosResponse with
        | error e =>
          simp only [hp] at hbody
          exact Except.noConfusion hbody
        | ok photos =>
          simp only [hp, Except.ok.injEq] at hbody
          subst hbody
          exact ⟨rfl, rfl⟩

/-- Witness for C9: "4" normalizes to the parsed float 4, "abc" and a
missing value normalize to null, and a valid subrating value parses to
its float. -/
theorem c9_numeric_witness :
    normalizeRating (some "4") = some (4 : Rat) ∧
    normalizeRating (some "abc") = none ∧
    normalizeRating none = none ∧
    parseSubratings (some [("location", ⟨some "Location", some "4"⟩)])
      = [("location", ⟨some "Location", JNum.num (4 : Rat)⟩)] := by
  refine ⟨c9_numeric_amended.1 "4" (4 : Rat) (by decide) (by norm_num),
    c9_numeric_amended.2.1 (some "abc") (by decide),
    c9_numeric_amended.2.2.2.1,
    (c9_numeric_amended.2.2.2.2.1 [("location", ⟨some "Location", some "4"⟩)]).trans
      (by decide)⟩
